import Mathlib

/-!
Verification development for the YouTube channel tracking system.

The definitions below are a shallow embedding of the core logic of the
repository:

* agents/youtube_tracker.py : YouTubeTrackerAgent.track_channel,
  YouTubeTrackerAgent._process_video, _save_video_to_database,
  _update_channel_state
* chains/tracking_chain.py : TrackingChain.execute_tracking_workflow,
  TrackingChain._check_for_videos
* tools/telegram_tools.py : RetryQueueManager and process_retry_queue

Timestamps are modelled as integers (seconds).  External calls (YouTube
fetch, LLM summarization, Telegram delivery) are modelled by outcome
oracles: each call either returns a value or raises with a message, which
is exactly the interface the Python code consumes.  The effects record
tracks which external calls were issued and with which arguments.
-/

namespace YoutubeTracker

/-- Outcome of an external call: either a returned value or a raised
exception carrying a message. -/
inductive CallOutcome (α : Type) where
  | ok (a : α)
  | exn (msg : String)
deriving Repr, DecidableEq

/-- Video metadata as produced by tools/youtube_tools.py (models/video.py
VideoMetadata).  Fields not used by the tracked logic are kept as plain
data so the database snapshot is faithful. -/
structure VideoMetadata where
  video_id : String
  channel_id : String
  title : String
  description : String
  published_at : Int
  thumbnail_url : String
  duration : String
  view_count : Nat
  like_count : Nat
  comment_count : Nat
  url : String
deriving Repr, DecidableEq

/-- Result object returned by the Telegram notification tool
(models/notification.py NotificationStatus, restricted to the fields read
by the tracker). -/
structure NotifyStatus where
  success : Bool
  error_message : Option String
deriving Repr, DecidableEq

/-- Persisted video row (storage/database.py Video). -/
structure VideoRow where
  video_id : String
  channel_id : String
  title : String
  description : String
  published_at : Int
  thumbnail_url : String
  duration : String
  view_count : Nat
  like_count : Nat
  comment_count : Nat
  processed_at : Option Int
  summary : Option String
  notification_sent : Bool
deriving Repr, DecidableEq

/-- Persisted channel row (storage/database.py Channel). -/
structure ChannelRow where
  channel_id : String
  channel_name : String
  check_interval : Int
  telegram_chat_id : String
  last_check : Option Int
  last_video_id : Option String
  is_active : Bool
deriving Repr, DecidableEq

/-- Channel configuration passed to the workflows (models/channel.py
ChannelConfig). -/
structure ChannelConfig where
  channel_id : String
  channel_name : String
  telegram_chat_id : String
  check_interval : Int
  last_check : Option Int
  last_video_id : Option String
  is_active : Bool
deriving Repr, DecidableEq

/-- The relational state store: videos and channels tables. -/
structure Database where
  videos : List VideoRow
  channels : List ChannelRow
deriving Repr, DecidableEq

/-- DatabaseUtils.get_video_by_id : select the row whose primary key
matches. -/
def getVideoById (db : Database) (vid : String) : Option VideoRow :=
  db.videos.find? (fun r => r.video_id == vid)

/-- DatabaseUtils.get_channel_by_id. -/
def getChannelById (db : Database) (cid : String) : Option ChannelRow :=
  db.channels.find? (fun c => c.channel_id == cid)

/-- The persisted notification_sent flag of a video row; false when no row
exists. -/
def flagOf (db : Database) (vid : String) : Bool :=
  match getVideoById db vid with
  | some r => r.notification_sent
  | none => false

/-- The persisted summary of a video row, when the row exists. -/
def summaryOf (db : Database) (vid : String) : Option (Option String) :=
  (getVideoById db vid).map VideoRow.summary

/-- The persisted last_check watermark of a channel row, when the row
exists. -/
def lastCheckOf (db : Database) (cid : String) : Option (Option Int) :=
  (getChannelById db cid).map ChannelRow.last_check

/-- The persisted last_video_id of a channel row, when the row exists. -/
def lastVideoOf (db : Database) (cid : String) : Option (Option String) :=
  (getChannelById db cid).map ChannelRow.last_video_id

/-- Python truthiness of an optional string: None and the empty string are
falsy.  Used for the condition existing_video.summary in
_process_video. -/
def truthyOptStr : Option String → Bool
  | none => false
  | some s => !(s == "")

/-- A request issued to the YouTube fetch tool get_channel_videos, with
the arguments the workflows pass. -/
structure FetchRequest where
  channel_id : String
  published_after : Int
  max_results : Nat
deriving Repr, DecidableEq

/-- Record of the external calls performed during a run: fetch requests
with their arguments, number of summarization calls, the summary argument
of each notify_new_video call, how many notify calls reported success, and
how many error notifications were sent. -/
structure Effects where
  fetchRequests : List FetchRequest := []
  summarizeCalls : Nat := 0
  notifyArgs : List (Option String) := []
  notifySuccesses : Nat := 0
  errorNotifyCalls : Nat := 0
deriving Repr, DecidableEq

/-- Sequential composition of effect records. -/
def mergeEffects (a b : Effects) : Effects :=
  { fetchRequests := a.fetchRequests ++ b.fetchRequests
    summarizeCalls := a.summarizeCalls + b.summarizeCalls
    notifyArgs := a.notifyArgs ++ b.notifyArgs
    notifySuccesses := a.notifySuccesses + b.notifySuccesses
    errorNotifyCalls := a.errorNotifyCalls + b.errorNotifyCalls }

/-- The in-place row mutation performed by _save_video_to_database on an
existing row: processed_at, summary, notification_sent and the engagement
counters are overwritten, every other column keeps its value. -/
def saveUpdateRow (video : VideoMetadata) (summary : Option String)
    (notification_sent : Bool) (now : Int) (r : VideoRow) : VideoRow :=
  { r with processed_at := some now, summary := summary,
           notification_sent := notification_sent,
           view_count := video.view_count, like_count := video.like_count,
           comment_count := video.comment_count }

/-- YouTubeTrackerAgent._save_video_to_database: update the existing row
in place (processed_at, summary, notification_sent and the engagement
counters) or insert a fresh row with processed_at set to now. -/
def saveVideoToDatabase (db : Database) (video : VideoMetadata)
    (summary : Option String) (notification_sent : Bool) (now : Int) : Database :=
  match getVideoById db video.video_id with
  | some _ =>
    { db with videos := db.videos.map (fun r =>
        if r.video_id == video.video_id then
          saveUpdateRow video summary notification_sent now r
        else r) }
  | none =>
    { db with videos := db.videos ++
        [{ video_id := video.video_id, channel_id := video.channel_id,
           title := video.title, description := video.description,
           published_at := video.published_at, thumbnail_url := video.thumbnail_url,
           duration := video.duration, view_count := video.view_count,
           like_count := video.like_count, comment_count := video.comment_count,
           processed_at := some now, summary := summary,
           notification_sent := notification_sent }] }

/-- YouTubeTrackerAgent._update_channel_state: set last_check to now; set
last_video_id to the first fetched video when the fetch list is nonempty,
otherwise leave it unchanged; insert the channel row when missing. -/
def updateChannelState (db : Database) (cfg : ChannelConfig)
    (videos : List VideoMetadata) (now : Int) : Database :=
  match getChannelById db cfg.channel_id with
  | some _ =>
    { db with channels := db.channels.map (fun c =>
        if c.channel_id == cfg.channel_id then
          { c with last_check := some now,
                   last_video_id := (match videos with
                     | v :: _ => some v.video_id
                     | [] => c.last_video_id),
                   channel_name := cfg.channel_name }
        else c) }
  | none =>
    { db with channels := db.channels ++
        [{ channel_id := cfg.channel_id, channel_name := cfg.channel_name,
           check_interval := cfg.check_interval,
           telegram_chat_id := cfg.telegram_chat_id,
           last_check := some now,
           last_video_id := (match videos with
             | v :: _ => some v.video_id
             | [] => none),
           is_active := true }] }

/-- Per item processing result dictionary built by
YouTubeTrackerAgent._process_video.  The Python dictionary keys summary,
notification_error and already_processed are optional; absence is
modelled by none and false. -/
structure ProcessResult where
  video_id : String
  summary_generated : Bool
  notification_sent : Bool
  already_processed : Bool
  error : Option String
  summary : Option String
  notification_error : Option String
deriving Repr, DecidableEq

/-- Outcome of one notify_new_video call as consumed by _process_video:
the persisted flag value, the recorded notification error and whether the
call reported success.  An exception is caught and leaves the flag
false. -/
def notifyOutcomeParts (o : CallOutcome NotifyStatus) : Bool × Option String × Nat :=
  match o with
  | CallOutcome.ok st =>
      (st.success, if st.success then none else st.error_message,
       if st.success then 1 else 0)
  | CallOutcome.exn m => (false, some ("Notification failed: " ++ m), 0)

/-- The fresh path of YouTubeTrackerAgent._process_video (no reusable
stored state): summarize inside a try block whose exception is recorded
in the error field, then always attempt the notification with the summary
or None, then save the row. -/
def processVideoFresh (db : Database) (video : VideoMetadata) (now : Int)
    (summarizeO : CallOutcome String) (notifyO : CallOutcome NotifyStatus) :
    ProcessResult × Database × Effects :=
  let sumParts : Option String × Bool × Option String :=
    match summarizeO with
    | CallOutcome.ok s => (some s, true, none)
    | CallOutcome.exn m => (none, false, some ("Summarization failed: " ++ m))
  let sumRes := sumParts.1
  let nParts := notifyOutcomeParts notifyO
  let sent := nParts.1
  let db2 := saveVideoToDatabase db video sumRes sent now
  ({ video_id := video.video_id, summary_generated := sumParts.2.1,
     notification_sent := sent, already_processed := false,
     error := sumParts.2.2, summary := sumRes, notification_error := nParts.2.1 },
   db2,
   { summarizeCalls := 1, notifyArgs := [sumRes], notifySuccesses := nParts.2.2 })

/-- YouTubeTrackerAgent._process_video.  Dedup gate first: a row whose
notification_sent flag is true short-circuits with no external call.  A
row with processed_at set and a truthy stored summary skips summarization,
attempts only the notification with the stored summary and persists the
resulting flag.  Every other case runs the fresh path. -/
def processVideo (db : Database) (video : VideoMetadata) (now : Int)
    (summarizeO : CallOutcome String) (notifyO : CallOutcome NotifyStatus) :
    ProcessResult × Database × Effects :=
  match getVideoById db video.video_id with
  | some existing =>
    if existing.notification_sent then
      ({ video_id := video.video_id, summary_generated := false,
         notification_sent := true, already_processed := true,
         error := none, summary := none, notification_error := none },
       db, {})
    else if existing.processed_at.isSome && truthyOptStr existing.summary then
      let nParts := notifyOutcomeParts notifyO
      let sent := nParts.1
      let db2 := saveVideoToDatabase db video existing.summary sent now
      ({ video_id := video.video_id, summary_generated := true,
         notification_sent := sent, already_processed := true,
         error := none, summary := existing.summary,
         notification_error := nParts.2.1 },
       db2,
       { notifyArgs := [existing.summary], notifySuccesses := nParts.2.2 })
    else
      processVideoFresh db video now summarizeO notifyO
  | none => processVideoFresh db video now summarizeO notifyO

/-- Process each fetched video in order, threading the database and
accumulating the per video results and effects (the fan-out loops of
track_channel and execute_tracking_workflow). -/
def processVideosFold (db : Database) (videos : List VideoMetadata) (now : Int)
    (summarizeO : String → CallOutcome String)
    (notifyO : String → CallOutcome NotifyStatus) :
    List ProcessResult × Database × Effects :=
  match videos with
  | [] => ([], db, {})
  | v :: rest =>
    let step := processVideo db v now (summarizeO v.video_id) (notifyO v.video_id)
    let restRun := processVideosFold step.2.1 rest now summarizeO notifyO
    (step.1 :: restRun.1, restRun.2.1, mergeEffects step.2.2 restRun.2.2)

/-- Result dictionary of YouTubeTrackerAgent.track_channel. -/
structure TrackResult where
  success : Bool := false
  skipped : Bool := false
  videos_found : Nat := 0
  videos_processed : Nat := 0
  notifications_sent : Nat := 0
  errors : List String := []
deriving Repr, DecidableEq

/-- The interval gate condition of track_channel: a last_check exists and
now minus last_check is strictly below the check interval. -/
def withinInterval (cfg : ChannelConfig) (now : Int) : Bool :=
  match cfg.last_check with
  | some t => decide (now - t < cfg.check_interval)
  | none => false

/-- YouTubeTrackerAgent.track_channel: interval gate, fetch with window
published_after = last_check or now minus one day, per video fan-out, and
channel state update.  A fetch exception records the error, sends an
error notification and aborts before any processing or watermark
update. -/
def trackChannel (db : Database) (cfg : ChannelConfig) (force_check : Bool)
    (now : Int) (maxVideos : Nat) (fetchO : CallOutcome (List VideoMetadata))
    (summarizeO : String → CallOutcome String)
    (notifyO : String → CallOutcome NotifyStatus) :
    TrackResult × Database × Effects :=
  if !force_check && withinInterval cfg now then
    ({ success := true, skipped := true }, db, {})
  else
    let req : FetchRequest :=
      { channel_id := cfg.channel_id,
        published_after := cfg.last_check.getD (now - 86400),
        max_results := maxVideos }
    match fetchO with
    | CallOutcome.exn m =>
      ({ success := false, errors := ["Failed to fetch videos: " ++ m] }, db,
       { fetchRequests := [req], errorNotifyCalls := 1 })
    | CallOutcome.ok videos =>
      let run := processVideosFold db videos now summarizeO notifyO
      let db2 := updateChannelState run.2.1 cfg videos now
      ({ success := true, videos_found := videos.length,
         videos_processed := run.1.length,
         notifications_sent := (run.1.filter (fun r => r.notification_sent)).length,
         errors := [] },
       db2,
       mergeEffects { fetchRequests := [req] } run.2.2)

/-- Result dictionary of TrackingChain.execute_tracking_workflow. -/
structure WorkflowResult where
  success : Bool := false
  no_new_videos : Bool := false
  videos_processed : Nat := 0
  notifications_sent : Nat := 0
  errors : List String := []
deriving Repr, DecidableEq

/-- The published_after computed by TrackingChain._check_for_videos: the
stored last_check only when it exists and the check is not forced,
otherwise now minus one day. -/
def chainPublishedAfter (cfg : ChannelConfig) (force_check : Bool) (now : Int) : Int :=
  match cfg.last_check, force_check with
  | some t, false => t
  | _, _ => now - 86400

/-- TrackingChain.execute_tracking_workflow: fetch via _check_for_videos
(whose exceptions are swallowed into a failed check result), short-circuit
with the no_new_videos flag on an empty fetch, otherwise fan out to
_process_video per video; notifications_sent counts results whose
notification_sent key is true, videos_processed counts results not marked
already_processed, success means no recorded errors.  The chain performs
no interval gate, no channel state update and no fetch-failure error
notification. -/
def executeTrackingWorkflow (db : Database) (cfg : ChannelConfig)
    (force_check : Bool) (now : Int) (maxVideos : Nat)
    (fetchO : CallOutcome (List VideoMetadata))
    (summarizeO : String → CallOutcome String)
    (notifyO : String → CallOutcome NotifyStatus) :
    WorkflowResult × Database × Effects :=
  let req : FetchRequest :=
    { channel_id := cfg.channel_id,
      published_after := chainPublishedAfter cfg force_check now,
      max_results := maxVideos }
  match fetchO with
  | CallOutcome.exn m =>
    ({ success := false, errors := ["Failed to check for videos: " ++ m] }, db,
     { fetchRequests := [req] })
  | CallOutcome.ok videos =>
    match videos with
    | [] =>
      ({ success := true, no_new_videos := true }, db, { fetchRequests := [req] })
    | _ :: _ =>
      let run := processVideosFold db videos now summarizeO notifyO
      let errs := run.1.filterMap (fun r =>
        r.error.map (fun e => "Video " ++ r.video_id ++ ": " ++ e))
      ({ success := errs.isEmpty,
         videos_processed := (run.1.filter (fun r => !r.already_processed)).length,
         notifications_sent := (run.1.filter (fun r => r.notification_sent)).length,
         errors := errs },
       run.2.1,
       mergeEffects { fetchRequests := [req] } run.2.2)

/-- Maximum delivery attempts for the Telegram retry queue
(tools/telegram_tools.py MAX_RETRY_ATTEMPTS). -/
def maxRetryAttempts : Nat := 3

/-- Entry of the persisted Telegram retry queue
(RetryQueueManager.add_to_retry_queue builds this snapshot). -/
structure RetryEntry where
  video : VideoMetadata
  summary : Option String
  chat_id : String
  include_thumbnail : Bool
  retry_count : Nat
  error_message : String
  retry_after : Int
  added_at : Int
deriving Repr, DecidableEq

/-- RetryQueueManager.add_to_retry_queue: reject when retry_count already
reached the maximum; reject when an entry with the same video id and chat
id already exists; otherwise append a fresh entry whose retry_after lies
one configured delay in the future. -/
def addToRetryQueue (q : List RetryEntry) (video : VideoMetadata)
    (summary : Option String) (chat_id : String) (include_thumbnail : Bool)
    (retry_count : Nat) (error_message : String) (now delaySeconds : Int) :
    List RetryEntry :=
  if maxRetryAttempts ≤ retry_count then q
  else if 0 < (q.filter (fun e =>
      e.video.video_id == video.video_id && e.chat_id == chat_id)).length then q
  else q ++ [{ video := video, summary := summary, chat_id := chat_id,
               include_thumbnail := include_thumbnail, retry_count := retry_count,
               error_message := error_message, retry_after := now + delaySeconds,
               added_at := now }]

/-- RetryQueueManager.remove_from_queue: keep exactly the entries whose
stored video id differs from the given one; the chat id is not
consulted. -/
def removeFromQueue (q : List RetryEntry) (vid : String) : List RetryEntry :=
  q.filter (fun e => !(e.video.video_id == vid))

/-- RetryQueueManager.update_retry_count: set the retry count and push the
next eligible time on every entry of the given video id. -/
def updateRetryCount (q : List RetryEntry) (vid : String) (newCount : Nat)
    (now delaySeconds : Int) : List RetryEntry :=
  q.map (fun e =>
    if e.video.video_id == vid then
      { e with retry_count := newCount, retry_after := now + delaySeconds }
    else e)

/-- RetryQueueManager.get_ready_retries: entries whose next eligible time
has passed. -/
def getReadyRetries (q : List RetryEntry) (now : Int) : List RetryEntry :=
  q.filter (fun e => decide (e.retry_after ≤ now))

/-- One iteration of the loop body of process_retry_queue for a ready
item, returning the new queue together with the increments of the
succeeded and failed counters.  The current attempt number is the stored
retry count plus one; above the maximum the entry is dropped and counted
failed; a successful direct send removes the entry; a failed send removes
the entry once the attempt number reached the maximum and otherwise bumps
the stored retry count. -/
def processRetryItem (q : List RetryEntry) (item : RetryEntry)
    (send : CallOutcome Unit) (now delaySeconds : Int) :
    List RetryEntry × Nat × Nat :=
  let current := item.retry_count + 1
  if maxRetryAttempts < current then
    (removeFromQueue q item.video.video_id, 0, 1)
  else
    match send with
    | CallOutcome.ok _ => (removeFromQueue q item.video.video_id, 1, 0)
    | CallOutcome.exn _ =>
      if maxRetryAttempts ≤ current then
        (removeFromQueue q item.video.video_id, 0, 1)
      else
        (updateRetryCount q item.video.video_id current now delaySeconds, 0, 1)

/-- process_retry_queue: drain the snapshot of ready items in order,
threading the queue and summing the succeeded and failed counters. -/
def processRetryQueue (q : List RetryEntry)
    (send : String → CallOutcome Unit) (now delaySeconds : Int) :
    List RetryEntry × Nat × Nat :=
  let rec go (cur : List RetryEntry) : List RetryEntry → List RetryEntry × Nat × Nat
    | [] => (cur, 0, 0)
    | item :: rest =>
      let step := processRetryItem cur item (send item.video.video_id) now delaySeconds
      let restRun := go step.1 rest
      (restRun.1, step.2.1 + restRun.2.1, step.2.2 + restRun.2.2)
  go q (getReadyRetries q now)

/-- Sequential repetition of _process_video on one item: run the
processor once per oracle pair (summarize outcome, notify outcome),
threading the persisted state, and count how many notify calls reported
success across the whole sequence.  This models any number of duplicate,
non-overlapping invocations that observe the same item id. -/
def seqProcess (db : Database) (video : VideoMetadata) (now : Int) :
    List (CallOutcome String × CallOutcome NotifyStatus) → Database × Nat
  | [] => (db, 0)
  | o :: rest =>
    let step := processVideo db video now o.1 o.2
    let restRun := seqProcess step.2.1 video now rest
    (restRun.1, step.2.2.notifySuccesses + restRun.2)

/-!
Interleaving model of overlapping _process_video invocations.

_process_video is an async coroutine; between its dedup read of the video
row, its awaited notify_new_video call and its awaited database commit the
event loop may run another task.  Two tasks processing the same item id
(for example a scheduled fire and a concurrent manual check, which the
design explicitly allows to dual-fire) therefore interleave at these await
points.  Each phase below is the code between two suspension points:
reading the flag, performing the notify call, committing the row with the
notify outcome as the new flag value.
-/

/-- Program counter of one in-flight _process_video task for a fixed
item. -/
inductive ProcPhase where
  | start
  | notifying
  | saving (sent : Bool)
  | finished
deriving Repr, DecidableEq

/-- Shared state of two overlapping _process_video tasks on one item: the
persisted notification_sent flag, the number of notify calls that
reported success, and both program counters. -/
structure ConcState where
  flag : Bool
  successNotifies : Nat
  t0 : ProcPhase
  t1 : ProcPhase
deriving Repr, DecidableEq

/-- Advance one task by one phase: the dedup read short-circuits when the
flag is already true, the notify phase performs the call (whose success is
the oracle outcome for that task), and the save phase commits the
outcome as the new persisted flag, as _save_video_to_database does. -/
def stepPhase (flag : Bool) (outcome : Bool) :
    ProcPhase → ProcPhase × Bool × Nat
  | ProcPhase.start =>
      if flag then (ProcPhase.finished, flag, 0)
      else (ProcPhase.notifying, flag, 0)
  | ProcPhase.notifying =>
      (ProcPhase.saving outcome, flag, if outcome then 1 else 0)
  | ProcPhase.saving b => (ProcPhase.finished, b, 0)
  | ProcPhase.finished => (ProcPhase.finished, flag, 0)

/-- Run one scheduler step: pick task 0 (false) or task 1 (true) and
advance it, with per task notify outcomes o0 and o1. -/
def concStep (o0 o1 : Bool) (s : ConcState) (pick : Bool) : ConcState :=
  if pick then
    let r := stepPhase s.flag o1 s.t1
    { flag := r.2.1, successNotifies := s.successNotifies + r.2.2,
      t0 := s.t0, t1 := r.1 }
  else
    let r := stepPhase s.flag o0 s.t0
    { flag := r.2.1, successNotifies := s.successNotifies + r.2.2,
      t0 := r.1, t1 := s.t1 }

/-- Run a whole schedule of interleaved steps. -/
def runSchedule (o0 o1 : Bool) (s : ConcState) : List Bool → ConcState
  | [] => s
  | pick :: rest => runSchedule o0 o1 (concStep o0 o1 s pick) rest

/-- Initial state of two overlapping invocations on a not yet notified
item. -/
def concInit : ConcState :=
  { flag := false, successNotifies := 0,
    t0 := ProcPhase.start, t1 := ProcPhase.start }

/-!
Concrete fixtures used by the closed theorems below.  The item id
AUTOTEST123 and the channel CHANNEL-A are the literals of the
deduplication scenario in the test suite
(tests/test_automatic_check_deduplication.py).
-/

/-- The scenario item: AUTOTEST123 on channel CHANNEL-A. -/
def sampleVideo : VideoMetadata :=
  { video_id := "AUTOTEST123", channel_id := "CHANNEL-A",
    title := "New Video for Auto Check Test",
    description := "A new video to test deduplication",
    published_at := 100, thumbnail_url := "https://example.com/thumb.jpg",
    duration := "PT3M45S", view_count := 500, like_count := 25,
    comment_count := 5, url := "https://www.youtube.com/watch?v=AUTOTEST123" }

/-- The scenario channel configuration, with a watermark at time 1000 and
the default hourly check interval. -/
def sampleCfg : ChannelConfig :=
  { channel_id := "CHANNEL-A", channel_name := "Channel A",
    telegram_chat_id := "987654321", check_interval := 3600,
    last_check := some 1000, last_video_id := none, is_active := true }

/-- Empty state store. -/
def emptyDb : Database := { videos := [], channels := [] }

/-- A notify call that returns success. -/
def okNotify : CallOutcome NotifyStatus :=
  CallOutcome.ok { success := true, error_message := none }

/-- Summarization oracle that always succeeds. -/
def sampleSummarizeOracle : String → CallOutcome String :=
  fun _ => CallOutcome.ok "generated summary"

/-- Notification oracle that always reports success. -/
def sampleNotifyOracle : String → CallOutcome NotifyStatus :=
  fun _ => okNotify

/-- A stored row for the scenario item that has already been notified. -/
def notifiedRow : VideoRow :=
  { video_id := "AUTOTEST123", channel_id := "CHANNEL-A", title := "t",
    description := "d", published_at := 100, thumbnail_url := "u",
    duration := "PT1M", view_count := 1, like_count := 0, comment_count := 0,
    processed_at := some 500, summary := some "stored summary",
    notification_sent := true }

/-- State store holding the already notified row. -/
def notifiedDb : Database := { videos := [notifiedRow], channels := [] }

/-- A processed-but-not-notified row whose stored summary is absent
(summarization had failed on the earlier attempt). -/
def staleRow : VideoRow :=
  { notifiedRow with summary := none, notification_sent := false }

/-- State store holding the summary-less processed row. -/
def staleDb : Database := { videos := [staleRow], channels := [] }

/-- A processed-but-not-notified row with a stored summary present. -/
def repairRow : VideoRow := { notifiedRow with notification_sent := false }

/-- State store holding the repairable row. -/
def repairDb : Database := { videos := [repairRow], channels := [] }

/-- Stored channel row for CHANNEL-A with watermark 1000 and a previously
observed item id. -/
def chanRow : ChannelRow :=
  { channel_id := "CHANNEL-A", channel_name := "Channel A",
    check_interval := 3600, telegram_chat_id := "987654321",
    last_check := some 1000, last_video_id := some "OLDVID11111",
    is_active := true }

/-- State store holding the CHANNEL-A row. -/
def chanDb : Database := { videos := [], channels := [chanRow] }

/-- A pending retry entry for the scenario item with one prior attempt. -/
def retryEntrySample : RetryEntry :=
  { video := sampleVideo, summary := none, chat_id := "987654321",
    include_thumbnail := true, retry_count := 1, error_message := "timeout",
    retry_after := 600, added_at := 0 }

/-- Retry queue holding the pending entry. -/
def retryQ : List RetryEntry := [retryEntrySample]

/-- The pending entry after two recorded attempts, so its next attempt is
the final one. -/
def maxedEntry : RetryEntry := { retryEntrySample with retry_count := 2 }

/-- First poll of the scenario: empty store, fetch returns the item,
summarization and notification succeed. -/
def firstPoll : WorkflowResult × Database × Effects :=
  executeTrackingWorkflow emptyDb sampleCfg false 2000 1
    (CallOutcome.ok [sampleVideo]) sampleSummarizeOracle sampleNotifyOracle

/-- Second poll of the scenario: the store left by the first poll, the
fetch returns the same item again, triggered as a forced check. -/
def secondPoll : WorkflowResult × Database × Effects :=
  executeTrackingWorkflow firstPoll.2.1 sampleCfg true 4000 1
    (CallOutcome.ok [sampleVideo]) sampleSummarizeOracle sampleNotifyOracle

/-!
Helper lemmas about the persistence layer and the item processor.
-/

/-- Updating every row matching an id with an id-preserving function moves
find? through the map. -/
theorem find?_update_of_find (l : List VideoRow) (vid : String)
    (f : VideoRow → VideoRow) (hf : ∀ r, (f r).video_id = r.video_id)
    (r : VideoRow) (h : l.find? (fun x => x.video_id == vid) = some r) :
    (l.map (fun x => if x.video_id == vid then f x else x)).find?
      (fun x => x.video_id == vid) = some (f r) := by
  induction l with
  | nil => simp at h
  | cons a t ih =>
    have hcond : (((if (a.video_id == vid) = true then f a else a).video_id == vid))
        = (a.video_id == vid) := by
      by_cases hb : (a.video_id == vid) = true
      · rw [if_pos hb, hf]
      · rw [if_neg hb]
    simp only [List.find?] at h
    simp only [List.map_cons, List.find?, hcond]
    cases ha : (a.video_id == vid) with
    | true =>
      rw [ha] at h
      simp only at h
      simp [ha]
      simp at h
      rw [h]
    | false =>
      rw [ha] at h
      simp only at h
      simp only [ha]
      exact ih h

/-- After _save_video_to_database the row of the saved item exists and
carries exactly the summary and flag that were passed in. -/
theorem getVideoById_save (db : Database) (v : VideoMetadata) (s : Option String)
    (b : Bool) (now : Int) :
    ∃ r, getVideoById (saveVideoToDatabase db v s b now) v.video_id = some r ∧
      r.summary = s ∧ r.notification_sent = b ∧ r.video_id = v.video_id := by
  unfold saveVideoToDatabase
  cases hdb : getVideoById db v.video_id with
  | none =>
    unfold getVideoById at hdb ⊢
    simp only [List.find?_append, hdb]
    simp [List.find?]
  | some r0 =>
    unfold getVideoById at hdb ⊢
    simp only
    rw [find?_update_of_find db.videos v.video_id (saveUpdateRow v s b now)
      (fun r => rfl) r0 hdb]
    have hvid : r0.video_id = v.video_id := by
      have h2 := List.find?_some hdb
      simpa using h2
    exact ⟨_, rfl, rfl, rfl, hvid⟩

/-- The persisted notification_sent flag after a save is the value that
was saved. -/
theorem flagOf_save (db : Database) (v : VideoMetadata) (s : Option String)
    (b : Bool) (now : Int) :
    flagOf (saveVideoToDatabase db v s b now) v.video_id = b := by
  obtain ⟨r, hr, _, hb, _⟩ := getVideoById_save db v s b now
  unfold flagOf
  rw [hr]
  exact hb

/-- The persisted summary after a save is the value that was saved. -/
theorem summaryOf_save (db : Database) (v : VideoMetadata) (s : Option String)
    (b : Bool) (now : Int) :
    summaryOf (saveVideoToDatabase db v s b now) v.video_id = some s := by
  obtain ⟨r, hr, hs, _, _⟩ := getVideoById_save db v s b now
  unfold summaryOf
  rw [hr]
  simp [hs]

/-- A dedup-gated invocation on an already notified item is a no-op with
no external calls. -/
theorem processVideo_flag_true (db : Database) (v : VideoMetadata) (now : Int)
    (sO : CallOutcome String) (nO : CallOutcome NotifyStatus)
    (h : flagOf db v.video_id = true) :
    processVideo db v now sO nO =
      ({ video_id := v.video_id, summary_generated := false,
         notification_sent := true, already_processed := true,
         error := none, summary := none, notification_error := none },
       db, {}) := by
  unfold flagOf at h
  cases hdb : getVideoById db v.video_id with
  | none => rw [hdb] at h; simp at h
  | some r =>
    rw [hdb] at h
    simp only at h
    unfold processVideo
    rw [hdb]
    simp [h]

/-- The fresh path performs at most one successful notify call, and a
successful call leaves the persisted flag true. -/
theorem processVideoFresh_succ (db : Database) (v : VideoMetadata) (now : Int)
    (sO : CallOutcome String) (nO : CallOutcome NotifyStatus) :
    (processVideoFresh db v now sO nO).2.2.notifySuccesses ≤ 1 ∧
    ((processVideoFresh db v now sO nO).2.2.notifySuccesses = 1 →
      flagOf (processVideoFresh db v now sO nO).2.1 v.video_id = true) := by
  unfold processVideoFresh
  cases nO with
  | ok st => cases hst : st.success <;> simp [notifyOutcomeParts, hst, flagOf_save]
  | exn m => simp [notifyOutcomeParts]

/-- One _process_video invocation performs at most one successful notify
call, and when it does the persisted flag afterwards is true. -/
theorem processVideo_succ (db : Database) (v : VideoMetadata) (now : Int)
    (sO : CallOutcome String) (nO : CallOutcome NotifyStatus) :
    (processVideo db v now sO nO).2.2.notifySuccesses ≤ 1 ∧
    ((processVideo db v now sO nO).2.2.notifySuccesses = 1 →
      flagOf (processVideo db v now sO nO).2.1 v.video_id = true) := by
  unfold processVideo
  cases hdb : getVideoById db v.video_id with
  | none => exact processVideoFresh_succ db v now sO nO
  | some r =>
    cases hflag : r.notification_sent with
    | true => simp [hflag]
    | false =>
      cases hp : r.processed_at.isSome with
      | false => simpa [hflag, hp] using processVideoFresh_succ db v now sO nO
      | true =>
        cases hs : truthyOptStr r.summary with
        | false => simpa [hflag, hp, hs] using processVideoFresh_succ db v now sO nO
        | true =>
          cases nO with
          | ok st =>
            cases hst : st.success <;>
              simp [hflag, hp, hs, notifyOutcomeParts, hst, flagOf_save]
          | exn m => simp [hflag, hp, hs, notifyOutcomeParts]

/-- Sequential invocations on an already notified item change nothing and
never notify. -/
theorem seqProcess_flag_true (db : Database) (v : VideoMetadata) (now : Int)
    (l : List (CallOutcome String × CallOutcome NotifyStatus))
    (h : flagOf db v.video_id = true) :
    seqProcess db v now l = (db, 0) := by
  induction l with
  | nil => rfl
  | cons o rest ih =>
    simp [seqProcess, processVideo_flag_true db v now o.1 o.2 h, ih]

/-- Across any sequence of non-overlapping invocations at most one notify
call reports success. -/
theorem seqProcess_le_one (v : VideoMetadata) (now : Int) :
    ∀ (l : List (CallOutcome String × CallOutcome NotifyStatus)) (db : Database),
      (seqProcess db v now l).2 ≤ 1 := by
  intro l
  induction l with
  | nil => intro db; simp [seqProcess]
  | cons o rest ih =>
    intro db
    have hle := (processVideo_succ db v now o.1 o.2).1
    have hflag := (processVideo_succ db v now o.1 o.2).2
    rcases Nat.le_one_iff_eq_zero_or_eq_one.mp hle with h0 | h1
    · simp only [seqProcess, h0, Nat.zero_add]
      exact ih _
    · have hf := hflag h1
      simp only [seqProcess, h1, seqProcess_flag_true _ v now rest hf]
      simp

/-- The item processor issues no fetch request (fresh path). -/
theorem processVideoFresh_fetchRequests (db : Database) (v : VideoMetadata)
    (now : Int) (sO : CallOutcome String) (nO : CallOutcome NotifyStatus) :
    (processVideoFresh db v now sO nO).2.2.fetchRequests = [] := rfl

/-- The item processor issues no fetch request. -/
theorem processVideo_fetchRequests (db : Database) (v : VideoMetadata)
    (now : Int) (sO : CallOutcome String) (nO : CallOutcome NotifyStatus) :
    (processVideo db v now sO nO).2.2.fetchRequests = [] := by
  unfold processVideo
  cases hdb : getVideoById db v.video_id with
  | none => exact processVideoFresh_fetchRequests db v now sO nO
  | some r =>
    cases hflag : r.notification_sent with
    | true => simp [hflag]
    | false =>
      cases hp : r.processed_at.isSome <;> cases hs : truthyOptStr r.summary <;>
        simp [hflag, hp, hs, processVideoFresh]

/-- The per item fan-out issues no fetch request. -/
theorem processVideosFold_fetchRequests (now : Int)
    (sO : String → CallOutcome String) (nO : String → CallOutcome NotifyStatus) :
    ∀ (videos : List VideoMetadata) (db : Database),
      (processVideosFold db videos now sO nO).2.2.fetchRequests = [] := by
  intro videos
  induction videos with
  | nil => intro db; rfl
  | cons v vs ih =>
    intro db
    simp [processVideosFold, mergeEffects, processVideo_fetchRequests, ih]

/-- Every chain workflow execution issues exactly one fetch request, with
the published_after computed by _check_for_videos and the configured
maximum result count. -/
theorem chain_fetchRequests (db : Database) (cfg : ChannelConfig)
    (force_check : Bool) (now : Int) (maxVideos : Nat)
    (fetchO : CallOutcome (List VideoMetadata))
    (sO : String → CallOutcome String) (nO : String → CallOutcome NotifyStatus) :
    (executeTrackingWorkflow db cfg force_check now maxVideos fetchO sO nO).2.2.fetchRequests
      = [{ channel_id := cfg.channel_id,
           published_after := chainPublishedAfter cfg force_check now,
           max_results := maxVideos }] := by
  unfold executeTrackingWorkflow
  cases fetchO with
  | exn m => rfl
  | ok videos =>
    cases videos with
    | nil => rfl
    | cons v vs => simp [mergeEffects, processVideosFold_fetchRequests]

/-- When the interval gate does not fire, track_channel issues exactly one
fetch request with the window last_check or now minus one day. -/
theorem track_fetchRequests (db : Database) (cfg : ChannelConfig)
    (force_check : Bool) (now : Int) (maxVideos : Nat)
    (fetchO : CallOutcome (List VideoMetadata))
    (sO : String → CallOutcome String) (nO : String → CallOutcome NotifyStatus)
    (h : (!force_check && withinInterval cfg now) = false) :
    (trackChannel db cfg force_check now maxVideos fetchO sO nO).2.2.fetchRequests
      = [{ channel_id := cfg.channel_id,
           published_after := cfg.last_check.getD (now - 86400),
           max_results := maxVideos }] := by
  unfold trackChannel
  simp only [h, Bool.false_eq_true, if_false]
  cases fetchO with
  | exn m => rfl
  | ok videos => simp [mergeEffects, processVideosFold_fetchRequests]

/-!
Claim theorems.
-/

/-- C1 (amended): across any number of duplicate but non-overlapping
Item Processor invocations on the same item id, at most one notify call
reports success, and once the persisted notification_sent flag is true
every further invocation leaves the state store unchanged and performs no
successful notify call.  The as-stated overlapping half of the claim
fails, see the counterexample. -/
theorem C1_sequential_dedup_monotone (db : Database) (v : VideoMetadata) (now : Int)
    (l : List (CallOutcome String × CallOutcome NotifyStatus)) :
    (seqProcess db v now l).2 ≤ 1 ∧
    (flagOf db v.video_id = true → seqProcess db v now l = (db, 0)) :=
  ⟨seqProcess_le_one v now l db, fun h => seqProcess_flag_true db v now l h⟩

/-- Witness for C1: on a store whose row is already notified, two further
invocations change nothing and notify zero times. -/
theorem C1_sequential_dedup_monotone_witness :
    flagOf notifiedDb "AUTOTEST123" = true ∧
    seqProcess notifiedDb sampleVideo 9000
      [(CallOutcome.ok "s", okNotify), (CallOutcome.exn "boom", okNotify)]
      = (notifiedDb, 0) :=
  ⟨by decide,
   (C1_sequential_dedup_monotone notifiedDb sampleVideo 9000
      [(CallOutcome.ok "s", okNotify), (CallOutcome.exn "boom", okNotify)]).2
     (by decide)⟩

/-- Counterexample for C1 as stated: two overlapping invocations that both
pass the dedup read before either commits produce two successful notify
calls, and when the second overlapping save carries a failed notify result
it writes the flag back to false after the first save had set it true. -/
theorem C1_overlap_counterexample :
    concInit.flag = false ∧
    (runSchedule true true concInit [false, true, false, false, true, true]).successNotifies = 2 ∧
    ¬ (runSchedule true true concInit [false, true, false, false, true, true]).successNotifies ≤ 1 ∧
    (runSchedule true false concInit [false, true, false, false, true]).flag = true ∧
    (runSchedule true false concInit [false, true, false, false, true, true]).flag = false := by
  decide

/-- C2: when summarization raises on a previously unseen item, the failure
is recorded in the error field of the result, exactly one summarize call
and one notify call happen, the notify call receives a null summary, and
on notify success the item is persisted with notification_sent true and a
null summary. -/
theorem C2_notify_despite_summarize_failure (db : Database) (v : VideoMetadata)
    (now : Int) (m : String) (st : NotifyStatus)
    (hnew : getVideoById db v.video_id = none) (hsucc : st.success = true) :
    (processVideo db v now (CallOutcome.exn m) (CallOutcome.ok st)).1.error
      = some ("Summarization failed: " ++ m) ∧
    (processVideo db v now (CallOutcome.exn m) (CallOutcome.ok st)).2.2.summarizeCalls = 1 ∧
    (processVideo db v now (CallOutcome.exn m) (CallOutcome.ok st)).2.2.notifyArgs = [none] ∧
    (processVideo db v now (CallOutcome.exn m) (CallOutcome.ok st)).1.notification_sent = true ∧
    flagOf (processVideo db v now (CallOutcome.exn m) (CallOutcome.ok st)).2.1 v.video_id = true ∧
    summaryOf (processVideo db v now (CallOutcome.exn m) (CallOutcome.ok st)).2.1 v.video_id
      = some none := by
  unfold processVideo
  rw [hnew]
  unfold processVideoFresh
  simp [notifyOutcomeParts, hsucc, flagOf_save, summaryOf_save]

/-- Witness for C2 on the empty store with a quota failure. -/
theorem C2_notify_despite_summarize_failure_witness :
    getVideoById emptyDb sampleVideo.video_id = none ∧
    ((processVideo emptyDb sampleVideo 50 (CallOutcome.exn "quota")
        (CallOutcome.ok { success := true, error_message := none })).1.error
      = some ("Summarization failed: " ++ "quota") ∧
    (processVideo emptyDb sampleVideo 50 (CallOutcome.exn "quota")
        (CallOutcome.ok { success := true, error_message := none })).2.2.summarizeCalls = 1 ∧
    (processVideo emptyDb sampleVideo 50 (CallOutcome.exn "quota")
        (CallOutcome.ok { success := true, error_message := none })).2.2.notifyArgs = [none] ∧
    (processVideo emptyDb sampleVideo 50 (CallOutcome.exn "quota")
        (CallOutcome.ok { success := true, error_message := none })).1.notification_sent = true ∧
    flagOf (processVideo emptyDb sampleVideo 50 (CallOutcome.exn "quota")
        (CallOutcome.ok { success := true, error_message := none })).2.1 sampleVideo.video_id = true ∧
    summaryOf (processVideo emptyDb sampleVideo 50 (CallOutcome.exn "quota")
        (CallOutcome.ok { success := true, error_message := none })).2.1 sampleVideo.video_id
      = some none) :=
  ⟨by decide,
   C2_notify_despite_summarize_failure emptyDb sampleVideo 50 "quota"
     { success := true, error_message := none } (by decide) (by decide)⟩

/-- Counterexample for C3 as stated: a stored row with processed_at set,
notification_sent false and no stored summary is reprocessed through the
fresh path, so a new summarization call is made. -/
theorem C3_missing_summary_counterexample :
    getVideoById staleDb sampleVideo.video_id = some staleRow ∧
    staleRow.processed_at.isSome = true ∧
    staleRow.notification_sent = false ∧
    (processVideo staleDb sampleVideo 900 (CallOutcome.ok "fresh summary")
      okNotify).2.2.summarizeCalls = 1 ∧
    ¬ (processVideo staleDb sampleVideo 900 (CallOutcome.ok "fresh summary")
      okNotify).2.2.summarizeCalls = 0 := by
  decide

/-- C3 (amended): for a stored row with processed_at set,
notification_sent false and a present (non-null, non-empty) stored
summary, reprocessing makes no summarization call, attempts exactly one
notification carrying the stored summary, and persists notification_sent
true exactly when the notify result reports success (false when the
notify call raises). -/
theorem C3_repair_reuses_stored_summary (db : Database) (v : VideoMetadata)
    (now : Int) (sO : CallOutcome String) (nO : CallOutcome NotifyStatus)
    (r : VideoRow) (hdb : getVideoById db v.video_id = some r)
    (hp : r.processed_at.isSome = true) (hs : truthyOptStr r.summary = true)
    (hn : r.notification_sent = false) :
    (processVideo db v now sO nO).2.2.summarizeCalls = 0 ∧
    (processVideo db v now sO nO).2.2.notifyArgs = [r.summary] ∧
    (processVideo db v now sO nO).1.summary = r.summary ∧
    (∀ st : NotifyStatus, nO = CallOutcome.ok st →
      (processVideo db v now sO nO).1.notification_sent = st.success ∧
      flagOf (processVideo db v now sO nO).2.1 v.video_id = st.success) ∧
    (∀ m : String, nO = CallOutcome.exn m →
      (processVideo db v now sO nO).1.notification_sent = false ∧
      flagOf (processVideo db v now sO nO).2.1 v.video_id = false) := by
  unfold processVideo
  rw [hdb]
  simp only [hn, hp, hs]
  refine ⟨?_, ?_, ?_, ?_, ?_⟩
  · simp
  · simp
  · simp
  · intro st hst
    subst hst
    simp [notifyOutcomeParts, flagOf_save]
  · intro m hm
    subst hm
    simp [notifyOutcomeParts, flagOf_save]

/-- Witness for C3 on a row whose stored summary is present. -/
theorem C3_repair_reuses_stored_summary_witness :
    getVideoById repairDb sampleVideo.video_id = some repairRow ∧
    repairRow.processed_at.isSome = true ∧
    truthyOptStr repairRow.summary = true ∧
    repairRow.notification_sent = false ∧
    ((processVideo repairDb sampleVideo 900 (CallOutcome.ok "fresh")
        (CallOutcome.ok { success := true, error_message := none })).2.2.summarizeCalls = 0 ∧
     (processVideo repairDb sampleVideo 900 (CallOutcome.ok "fresh")
        (CallOutcome.ok { success := true, error_message := none })).2.2.notifyArgs
        = [repairRow.summary] ∧
     (processVideo repairDb sampleVideo 900 (CallOutcome.ok "fresh")
        (CallOutcome.ok { success := true, error_message := none })).1.summary
        = repairRow.summary ∧
     (processVideo repairDb sampleVideo 900 (CallOutcome.ok "fresh")
        (CallOutcome.ok { success := true, error_message := none })).1.notification_sent = true ∧
     flagOf (processVideo repairDb sampleVideo 900 (CallOutcome.ok "fresh")
        (CallOutcome.ok { success := true, error_message := none })).2.1
        sampleVideo.video_id = true) := by
  have h := C3_repair_reuses_stored_summary repairDb sampleVideo 900
    (CallOutcome.ok "fresh") (CallOutcome.ok { success := true, error_message := none })
    repairRow (by decide) (by decide) (by decide) (by decide)
  have h4 := h.2.2.2.1 { success := true, error_message := none } rfl
  exact ⟨by decide, by decide, by decide, by decide,
    h.1, h.2.1, h.2.2.1, h4.1, h4.2⟩

/-- C4 (amended): the interval gate lives only in the agent method
track_channel: there a channel whose last_check lies within the check
interval short-circuits to success with the skipped flag, no external
call and an unchanged store when not forced, and a forced call fetches.
The chain workflow execute_tracking_workflow, used by the scheduler and
the manual trigger, has no interval gate and fetches even within the
interval. -/
theorem C4_interval_gate (db : Database) (cfg : ChannelConfig) (now t : Int)
    (maxV : Nat) (fetchO : CallOutcome (List VideoMetadata))
    (sO : String → CallOutcome String) (nO : String → CallOutcome NotifyStatus)
    (hlc : cfg.last_check = some t) (hwithin : now - t < cfg.check_interval) :
    trackChannel db cfg false now maxV fetchO sO nO
      = ({ success := true, skipped := true }, db, {}) ∧
    (trackChannel db cfg true now maxV fetchO sO nO).2.2.fetchRequests.length = 1 ∧
    (executeTrackingWorkflow db cfg false now maxV fetchO sO nO).2.2.fetchRequests.length = 1 := by
  refine ⟨?_, ?_, ?_⟩
  · have hdec : decide (now - t < cfg.check_interval) = true := decide_eq_true hwithin
    simp [trackChannel, withinInterval, hlc, hdec]
  · rw [track_fetchRequests db cfg true now maxV fetchO sO nO (by simp)]
    rfl
  · rw [chain_fetchRequests]
    rfl

/-- Witness for C4 at the scenario channel, 100 seconds after its
watermark. -/
theorem C4_interval_gate_witness :
    sampleCfg.last_check = some 1000 ∧ ((1100:Int) - 1000 < sampleCfg.check_interval) ∧
    (trackChannel emptyDb sampleCfg false 1100 1 (CallOutcome.ok [sampleVideo])
        sampleSummarizeOracle sampleNotifyOracle
      = ({ success := true, skipped := true }, emptyDb, {}) ∧
    (trackChannel emptyDb sampleCfg true 1100 1 (CallOutcome.ok [sampleVideo])
        sampleSummarizeOracle sampleNotifyOracle).2.2.fetchRequests.length = 1 ∧
    (executeTrackingWorkflow emptyDb sampleCfg false 1100 1 (CallOutcome.ok [sampleVideo])
        sampleSummarizeOracle sampleNotifyOracle).2.2.fetchRequests.length = 1) :=
  ⟨by decide, by decide,
   C4_interval_gate emptyDb sampleCfg 1100 1000 1 (CallOutcome.ok [sampleVideo])
     sampleSummarizeOracle sampleNotifyOracle (by decide) (by decide)⟩

/-- Counterexample for C4 as stated: the chain workflow fetches a channel
that is well within its check interval even with force_check false,
instead of skipping without a fetch call. -/
theorem C4_chain_no_gate_counterexample :
    sampleCfg.last_check = some 1000 ∧
    ((1100:Int) - 1000 < sampleCfg.check_interval) ∧
    (executeTrackingWorkflow emptyDb sampleCfg false 1100 1 (CallOutcome.ok [])
      sampleSummarizeOracle sampleNotifyOracle).2.2.fetchRequests.length = 1 ∧
    ¬ (executeTrackingWorkflow emptyDb sampleCfg false 1100 1 (CallOutcome.ok [])
      sampleSummarizeOracle sampleNotifyOracle).2.2.fetchRequests.length = 0 := by
  decide

/-- C5 (amended): the agent fetch window is last_check when set and
otherwise now minus one day, independent of forcing, and always requests
the configured maximum count; the chain fetch window uses last_check only
when it is set and the check is not forced, and a forced chain check uses
now minus one day even when last_check is set. -/
theorem C5_fetch_window (db : Database) (cfg : ChannelConfig) (force : Bool)
    (now t : Int) (maxV : Nat) (fetchO : CallOutcome (List VideoMetadata))
    (sO : String → CallOutcome String) (nO : String → CallOutcome NotifyStatus) :
    ((force = true ∨ withinInterval cfg now = false) →
      (trackChannel db cfg force now maxV fetchO sO nO).2.2.fetchRequests =
        [{ channel_id := cfg.channel_id,
           published_after := cfg.last_check.getD (now - 86400),
           max_results := maxV }]) ∧
    (cfg.last_check = some t → force = false →
      (executeTrackingWorkflow db cfg force now maxV fetchO sO nO).2.2.fetchRequests =
        [{ channel_id := cfg.channel_id, published_after := t, max_results := maxV }]) ∧
    (force = true →
      (executeTrackingWorkflow db cfg force now maxV fetchO sO nO).2.2.fetchRequests =
        [{ channel_id := cfg.channel_id, published_after := now - 86400,
           max_results := maxV }]) := by
  refine ⟨?_, ?_, ?_⟩
  · intro h
    apply track_fetchRequests
    rcases h with h | h
    · simp [h]
    · simp [h]
  · intro hlc hforce
    rw [chain_fetchRequests]
    simp [chainPublishedAfter, hlc, hforce]
  · intro hforce
    rw [chain_fetchRequests]
    cases hl : cfg.last_check <;> simp [chainPublishedAfter, hforce, hl]

/-- Witness for C5 at the scenario channel. -/
theorem C5_fetch_window_witness :
    ((true = true ∨ withinInterval sampleCfg 500000 = false) ∧
     (trackChannel emptyDb sampleCfg true 500000 1 (CallOutcome.ok [])
        sampleSummarizeOracle sampleNotifyOracle).2.2.fetchRequests =
       [{ channel_id := "CHANNEL-A", published_after := 1000, max_results := 1 }]) ∧
    (sampleCfg.last_check = some 1000 ∧
     (executeTrackingWorkflow emptyDb sampleCfg false 500000 1 (CallOutcome.ok [])
        sampleSummarizeOracle sampleNotifyOracle).2.2.fetchRequests =
       [{ channel_id := "CHANNEL-A", published_after := 1000, max_results := 1 }]) ∧
    (executeTrackingWorkflow emptyDb sampleCfg true 500000 1 (CallOutcome.ok [])
        sampleSummarizeOracle sampleNotifyOracle).2.2.fetchRequests =
      [{ channel_id := "CHANNEL-A", published_after := 413600, max_results := 1 }] := by
  have h := C5_fetch_window emptyDb sampleCfg true 500000 1000 1 (CallOutcome.ok [])
    sampleSummarizeOracle sampleNotifyOracle
  have h2 := C5_fetch_window emptyDb sampleCfg false 500000 1000 1 (CallOutcome.ok [])
    sampleSummarizeOracle sampleNotifyOracle
  exact ⟨⟨Or.inl rfl, h.1 (Or.inl rfl)⟩, ⟨by decide, h2.2.1 (by decide) rfl⟩,
    h.2.2 rfl⟩

/-- Counterexample for C5 as stated: a forced chain check on a channel
whose last_check is 1000 requests published_after now minus one day
(413600) instead of the stored watermark. -/
theorem C5_forced_window_counterexample :
    sampleCfg.last_check = some 1000 ∧
    (executeTrackingWorkflow emptyDb sampleCfg true 500000 1 (CallOutcome.ok [])
      sampleSummarizeOracle sampleNotifyOracle).2.2.fetchRequests =
      [{ channel_id := "CHANNEL-A", published_after := 413600, max_results := 1 }] ∧
    (413600 : Int) ≠ 1000 := by
  decide

/-- C6 (code bug evaluation): an empty fetch in the chain workflow
returns success with the no_new_videos flag but leaves the state store
untouched, so the last_check watermark stays at 1000 instead of advancing
to now (7200); the update_channel_state routine, which the chain never
calls on this path, would have advanced the watermark and kept
last_video_id unchanged, as the agent path track_channel does. -/
theorem C6_empty_poll_watermark_frozen :
    (executeTrackingWorkflow chanDb sampleCfg false 7200 1 (CallOutcome.ok [])
      sampleSummarizeOracle sampleNotifyOracle).1.success = true ∧
    (executeTrackingWorkflow chanDb sampleCfg false 7200 1 (CallOutcome.ok [])
      sampleSummarizeOracle sampleNotifyOracle).1.no_new_videos = true ∧
    (executeTrackingWorkflow chanDb sampleCfg false 7200 1 (CallOutcome.ok [])
      sampleSummarizeOracle sampleNotifyOracle).2.1 = chanDb ∧
    lastCheckOf (executeTrackingWorkflow chanDb sampleCfg false 7200 1 (CallOutcome.ok [])
      sampleSummarizeOracle sampleNotifyOracle).2.1 "CHANNEL-A" = some (some 1000) ∧
    ¬ lastCheckOf (executeTrackingWorkflow chanDb sampleCfg false 7200 1 (CallOutcome.ok [])
      sampleSummarizeOracle sampleNotifyOracle).2.1 "CHANNEL-A" = some (some 7200) ∧
    lastCheckOf (updateChannelState chanDb sampleCfg [] 7200) "CHANNEL-A" = some (some 7200) ∧
    lastVideoOf (updateChannelState chanDb sampleCfg [] 7200) "CHANNEL-A"
      = some (some "OLDVID11111") ∧
    lastCheckOf (trackChannel chanDb sampleCfg true 7200 1 (CallOutcome.ok [])
      sampleSummarizeOracle sampleNotifyOracle).2.1 "CHANNEL-A" = some (some 7200) ∧
    lastVideoOf (trackChannel chanDb sampleCfg true 7200 1 (CallOutcome.ok [])
      sampleSummarizeOracle sampleNotifyOracle).2.1 "CHANNEL-A" = some (some "OLDVID11111") := by
  decide

/-- C7 (amended): a fetch exception aborts the cycle with zero items
processed, a recorded channel error and an untouched store on both
paths; the agent path track_channel additionally sends one error
notification, while the chain path execute_tracking_workflow swallows
the exception inside the check step and sends no error notification. -/
theorem C7_fetch_failure_handling (db : Database) (cfg : ChannelConfig)
    (force : Bool) (now : Int) (maxV : Nat) (m : String)
    (sO : String → CallOutcome String) (nO : String → CallOutcome NotifyStatus)
    (hreach : (!force && withinInterval cfg now) = false) :
    (trackChannel db cfg force now maxV (CallOutcome.exn m) sO nO).1.success = false ∧
    (trackChannel db cfg force now maxV (CallOutcome.exn m) sO nO).1.videos_processed = 0 ∧
    (trackChannel db cfg force now maxV (CallOutcome.exn m) sO nO).1.errors
      = ["Failed to fetch videos: " ++ m] ∧
    (trackChannel db cfg force now maxV (CallOutcome.exn m) sO nO).2.2.errorNotifyCalls = 1 ∧
    (trackChannel db cfg force now maxV (CallOutcome.exn m) sO nO).2.2.notifyArgs = [] ∧
    (trackChannel db cfg force now maxV (CallOutcome.exn m) sO nO).2.1 = db ∧
    (executeTrackingWorkflow db cfg force now maxV (CallOutcome.exn m) sO nO).1.success = false ∧
    (executeTrackingWorkflow db cfg force now maxV (CallOutcome.exn m) sO nO).1.errors
      = ["Failed to check for videos: " ++ m] ∧
    (executeTrackingWorkflow db cfg force now maxV (CallOutcome.exn m) sO nO).2.2.errorNotifyCalls = 0 ∧
    (executeTrackingWorkflow db cfg force now maxV (CallOutcome.exn m) sO nO).2.1 = db := by
  have hagent : trackChannel db cfg force now maxV (CallOutcome.exn m) sO nO
      = ({ success := false, errors := ["Failed to fetch videos: " ++ m] }, db,
         { fetchRequests := [⟨cfg.channel_id, cfg.last_check.getD (now - 86400), maxV⟩],
           errorNotifyCalls := 1 }) := by
    unfold trackChannel
    simp [hreach]
  rw [hagent]
  exact ⟨rfl, rfl, rfl, rfl, rfl, rfl, rfl, rfl, rfl, rfl⟩

/-- Witness for C7 with a forced check and a quota failure. -/
theorem C7_fetch_failure_handling_witness :
    ((!true && withinInterval sampleCfg 7200) = false) ∧
    ((trackChannel chanDb sampleCfg true 7200 1 (CallOutcome.exn "quota")
        sampleSummarizeOracle sampleNotifyOracle).1.success = false ∧
     (trackChannel chanDb sampleCfg true 7200 1 (CallOutcome.exn "quota")
        sampleSummarizeOracle sampleNotifyOracle).1.videos_processed = 0 ∧
     (trackChannel chanDb sampleCfg true 7200 1 (CallOutcome.exn "quota")
        sampleSummarizeOracle sampleNotifyOracle).1.errors
        = ["Failed to fetch videos: " ++ "quota"] ∧
     (trackChannel chanDb sampleCfg true 7200 1 (CallOutcome.exn "quota")
        sampleSummarizeOracle sampleNotifyOracle).2.2.errorNotifyCalls = 1 ∧
     (trackChannel chanDb sampleCfg true 7200 1 (CallOutcome.exn "quota")
        sampleSummarizeOracle sampleNotifyOracle).2.2.notifyArgs = [] ∧
     (trackChannel chanDb sampleCfg true 7200 1 (CallOutcome.exn "quota")
        sampleSummarizeOracle sampleNotifyOracle).2.1 = chanDb ∧
     (executeTrackingWorkflow chanDb sampleCfg true 7200 1 (CallOutcome.exn "quota")
        sampleSummarizeOracle sampleNotifyOracle).1.success = false ∧
     (executeTrackingWorkflow chanDb sampleCfg true 7200 1 (CallOutcome.exn "quota")
        sampleSummarizeOracle sampleNotifyOracle).1.errors
        = ["Failed to check for videos: " ++ "quota"] ∧
     (executeTrackingWorkflow chanDb sampleCfg true 7200 1 (CallOutcome.exn "quota")
        sampleSummarizeOracle sampleNotifyOracle).2.2.errorNotifyCalls = 0 ∧
     (executeTrackingWorkflow chanDb sampleCfg true 7200 1 (CallOutcome.exn "quota")
        sampleSummarizeOracle sampleNotifyOracle).2.1 = chanDb) :=
  ⟨by decide,
   C7_fetch_failure_handling chanDb sampleCfg true 7200 1 "quota"
     sampleSummarizeOracle sampleNotifyOracle (by decide)⟩

/-- Counterexample for C7 as stated: a fetch exception in the chain
workflow aborts with a recorded error but triggers zero error
notifications. -/
theorem C7_chain_no_error_notification_counterexample :
    (executeTrackingWorkflow chanDb sampleCfg false 7200 1 (CallOutcome.exn "quota")
      sampleSummarizeOracle sampleNotifyOracle).1.success = false ∧
    ¬ (executeTrackingWorkflow chanDb sampleCfg false 7200 1 (CallOutcome.exn "quota")
      sampleSummarizeOracle sampleNotifyOracle).1.errors = [] ∧
    (executeTrackingWorkflow chanDb sampleCfg false 7200 1 (CallOutcome.exn "quota")
      sampleSummarizeOracle sampleNotifyOracle).2.2.errorNotifyCalls = 0 := by
  decide

/-- C8: enqueueing with an existing entry for the same item and
destination key leaves the queue unchanged; enqueueing with an attempt
count at or above the maximum leaves it unchanged; draining removes the
entry on delivery success (counted succeeded when the attempt bound
allows a send), and removes the entry counting it failed when a failed
attempt reaches the maximum attempt count. -/
theorem C8_retry_queue_bounds (q : List RetryEntry) (video : VideoMetadata)
    (summary : Option String) (chat : String) (incl : Bool) (rc : Nat)
    (err : String) (now delay : Int) (item : RetryEntry) (m : String) :
    (0 < (q.filter (fun e =>
        e.video.video_id == video.video_id && e.chat_id == chat)).length →
      addToRetryQueue q video summary chat incl rc err now delay = q) ∧
    (maxRetryAttempts ≤ rc →
      addToRetryQueue q video summary chat incl rc err now delay = q) ∧
    ((processRetryItem q item (CallOutcome.ok ()) now delay).1
      = removeFromQueue q item.video.video_id) ∧
    (item.retry_count < maxRetryAttempts →
      processRetryItem q item (CallOutcome.ok ()) now delay
        = (removeFromQueue q item.video.video_id, 1, 0)) ∧
    (maxRetryAttempts ≤ item.retry_count + 1 →
      processRetryItem q item (CallOutcome.exn m) now delay
        = (removeFromQueue q item.video.video_id, 0, 1)) := by
  refine ⟨?_, ?_, ?_, ?_, ?_⟩
  · intro hdup
    by_cases h3 : maxRetryAttempts ≤ rc <;> simp [addToRetryQueue, h3, hdup]
  · intro h3
    simp [addToRetryQueue, h3]
  · by_cases hcur : maxRetryAttempts < item.retry_count + 1 <;>
      simp [processRetryItem, hcur]
  · intro hrc
    have hnot : ¬ maxRetryAttempts < item.retry_count + 1 :=
      Nat.not_lt.mpr (Nat.succ_le_of_lt hrc)
    simp [processRetryItem, hnot]
  · intro hge
    by_cases hcur : maxRetryAttempts < item.retry_count + 1 <;>
      simp [processRetryItem, hcur, hge]

/-- Witness for C8 on a one entry queue. -/
theorem C8_retry_queue_bounds_witness :
    (0 < (retryQ.filter (fun e =>
        e.video.video_id == sampleVideo.video_id && e.chat_id == "987654321")).length ∧
     addToRetryQueue retryQ sampleVideo (some "s") "987654321" true 0 "err" 1000 1800
       = retryQ) ∧
    (maxRetryAttempts ≤ 3 ∧
     addToRetryQueue [] sampleVideo (some "s") "987654321" true 3 "err" 1000 1800
       = []) ∧
    (retryEntrySample.retry_count < maxRetryAttempts ∧
     processRetryItem retryQ retryEntrySample (CallOutcome.ok ()) 2000 1800
       = (removeFromQueue retryQ "AUTOTEST123", 1, 0)) ∧
    (maxRetryAttempts ≤ maxedEntry.retry_count + 1 ∧
     processRetryItem retryQ maxedEntry (CallOutcome.exn "net") 2000 1800
       = (removeFromQueue retryQ "AUTOTEST123", 0, 1)) :=
  ⟨⟨by decide,
    (C8_retry_queue_bounds retryQ sampleVideo (some "s") "987654321" true 0 "err"
      1000 1800 retryEntrySample "net").1 (by decide)⟩,
   ⟨by decide,
    (C8_retry_queue_bounds ([] : List RetryEntry) sampleVideo (some "s") "987654321"
      true 3 "err" 1000 1800 retryEntrySample "net").2.1 (by decide)⟩,
   ⟨by decide,
    (C8_retry_queue_bounds retryQ sampleVideo (some "s") "987654321" true 0 "err"
      2000 1800 retryEntrySample "net").2.2.2.1 (by decide)⟩,
   ⟨by decide,
    (C8_retry_queue_bounds retryQ sampleVideo (some "s") "987654321" true 0 "err"
      2000 1800 maxedEntry "net").2.2.2.2 (by decide)⟩⟩

/-- C9 (code bug evaluation): on the AUTOTEST123 and CHANNEL-A scenario
the first poll reports one video processed and one notification sent with
one actual successful notify call; the second poll performing the dedup
short circuit makes zero notify calls and reports zero videos processed,
but its notifications_sent counter is 1, not the 0 asserted by the
scenario and the repository test, because the chain counts the
notification_sent key of the short-circuit result. -/
theorem C9_second_poll_counts :
    sampleVideo.video_id = "AUTOTEST123" ∧
    sampleCfg.channel_id = "CHANNEL-A" ∧
    firstPoll.1.videos_processed = 1 ∧
    firstPoll.1.notifications_sent = 1 ∧
    firstPoll.2.2.notifyArgs.length = 1 ∧
    firstPoll.2.2.notifySuccesses = 1 ∧
    flagOf firstPoll.2.1 "AUTOTEST123" = true ∧
    secondPoll.1.videos_processed = 0 ∧
    secondPoll.2.2.notifyArgs.length = 0 ∧
    secondPoll.1.notifications_sent = 1 ∧
    ¬ secondPoll.1.notifications_sent = 0 := by
  decide

/-- C10: remove_from_queue keeps exactly the entries whose stored video id
differs from the given one, so entries of the same video addressed to
other destinations are removed as well, and a delivery success during
draining removes by video id alone. -/
theorem C10_remove_all_destinations (q : List RetryEntry) (vid : String)
    (e : RetryEntry) (item : RetryEntry) (now delay : Int) :
    (e ∈ removeFromQueue q vid ↔ (e ∈ q ∧ ¬ e.video.video_id = vid)) ∧
    ((processRetryItem q item (CallOutcome.ok ()) now delay).1
      = removeFromQueue q item.video.video_id) := by
  constructor
  · unfold removeFromQueue
    rw [List.mem_filter]
    simp
  · by_cases hcur : maxRetryAttempts < item.retry_count + 1 <;>
      simp [processRetryItem, hcur]

end YoutubeTracker
